import Mathlib

/-!
Shallow embedding of the `fsm_agent` framework: the finite-state machine in
`src/fsm_agent/fsm.py`, the tool registry in `src/fsm_agent/tool_registry.py`,
and the orchestrator guide in `src/fsm_agent/utils.py`.

Python dictionaries are modelled as association lists with first-match lookup;
the construction and mutation paths below keep keys unique, matching dict
semantics.  Raised `ValueError`s are modelled as `Except.error` carrying the
interpolated message string.  Mutating methods are modelled in state-passing
style: they return the result (or the raised error) together with the
post-call object, which equals the pre-call object when the method raised
before performing any assignment.
-/

/-- Membership test for a Python dict modelled as an association list
(`k in d`). -/
def dictContains {β : Type} (d : List (String × β)) (k : String) : Bool :=
  d.any (fun p => p.1 == k)

/-- Python `d.get(k, [])` for the state graph: the value stored under `k`,
or `[]` when `k` is not a key. -/
def dictGetD {β : Type} (d : List (String × β)) (k : String) (dflt : β) : β :=
  match d.find? (fun p => p.1 == k) with
  | some p => p.2
  | none => dflt

/-- Python dict assignment `d[k] = v`: overwrite in place when `k` is already
a key (keeping insertion order), otherwise append a new entry. -/
def dictSet {β : Type} (d : List (String × β)) (k : String) (v : β) :
    List (String × β) :=
  if d.any (fun p => p.1 == k) then
    d.map (fun p => if p.1 == k then (k, v) else p)
  else
    d ++ [(k, v)]

/-- The FSM of `src/fsm_agent/fsm.py`: a transition graph `states`
(dict from state name to list of allowed next states), the mutable
`current_state`, and the list `terminal_states`. -/
structure FSM where
  states : List (String × List String)
  current_state : String
  terminal_states : List String
deriving DecidableEq, Repr

/-- Message of the `ValueError` raised by `FSM.__init__` when the initial
state is not a key of `states`. -/
def initialStateMsg (initial_state : String) : String :=
  "Initial state '" ++ initial_state ++ "' is not defined in states."

/-- Message of the `ValueError` raised by `FSM.__init__` when a transition
target is not a key of `states`. -/
def targetMsg (next_state state : String) : String :=
  "Transition target '" ++ next_state ++ "' from '" ++ state ++
    "' is not defined in states."

/-- The first `(state, next_state)` pair, in iteration order, whose target
`next_state` is not a key of `states` — the edge at which `FSM.__init__`
raises, if any. -/
def firstBadEdge (states : List (String × List String)) :
    Option (String × String) :=
  states.findSome? (fun p =>
    (p.2.find? (fun ns => !dictContains states ns)).map (fun ns => (p.1, ns)))

/-- `FSM.__init__`: validates that `initial_state` is a key of `states` and
that every transition target is a key of `states`, raising `ValueError`
(modelled as `Except.error`) at the first violation; on success the machine
starts in `initial_state`.  A raise inside `__init__` means no usable
instance is produced, hence the `Except` return. -/
def FSM.construct (states : List (String × List String))
    (initial_state : String) (terminal_states : List String) :
    Except String FSM :=
  if !dictContains states initial_state then
    .error (initialStateMsg initial_state)
  else
    match firstBadEdge states with
    | some (state, next_state) => .error (targetMsg next_state state)
    | none => .ok ⟨states, initial_state, terminal_states⟩

/-- `FSM.get_next_states`: `self.states.get(self.current_state, [])`. -/
def FSM.get_next_states (fsm : FSM) : List String :=
  dictGetD fsm.states fsm.current_state []

/-- Message of the `ValueError` raised by `FSM.transition`, carrying the
current state, the requested target and the legal set. -/
def invalidTransitionMsg (current target : String) (allowed : List String) :
    String :=
  "Invalid transition: Cannot move from '" ++ current ++ "' to '" ++ target ++
    "'. Allowed transitions: " ++ String.intercalate ", " allowed

/-- `FSM.transition`: raises (leaving the machine untouched, since the raise
precedes the assignment) when `next_state` is not in `get_next_states()`;
otherwise assigns `current_state = next_state` and returns `None`. -/
def FSM.transition (fsm : FSM) (next_state : String) :
    Except String Unit × FSM :=
  if !(fsm.get_next_states.contains next_state) then
    (.error (invalidTransitionMsg fsm.current_state next_state
      fsm.get_next_states), fsm)
  else
    (.ok (), { fsm with current_state := next_state })

/-- `FSM.is_terminal`: `self.current_state in self.terminal_states`. -/
def FSM.is_terminal (fsm : FSM) : Bool :=
  fsm.terminal_states.contains fsm.current_state

/-- State-passing form of `FSM.get_next_states`: the method body only reads
attributes, so the post-call machine is the receiver itself. -/
def FSM.get_next_statesRun (fsm : FSM) : List String × FSM :=
  (fsm.get_next_states, fsm)

/-- State-passing form of `FSM.is_terminal`: the method body only reads
attributes, so the post-call machine is the receiver itself. -/
def FSM.is_terminalRun (fsm : FSM) : Bool × FSM :=
  (fsm.is_terminal, fsm)

/-- Repeatedly call `get_next_states()` then `is_terminal()` `n` times with
no intervening `transition`, threading the machine through every call and
collecting each call's pair of results. -/
def FSM.readSeq : FSM → Nat → List (List String × Bool) × FSM
  | fsm, 0 => ([], fsm)
  | fsm, n + 1 =>
    let (r1, fsm1) := fsm.get_next_statesRun
    let (r2, fsm2) := fsm1.is_terminalRun
    let (rest, fsmF) := fsm2.readSeq n
    ((r1, r2) :: rest, fsmF)

/-- Apply a sequence of `transition` calls in order, recording
`current_state` after each call; a call that raises leaves the state
unchanged and the sequence continues (the caller catches and retries),
matching the state-passing model of `transition`. -/
def FSM.runSeq : FSM → List String → List String
  | _, [] => []
  | fsm, t :: ts =>
    let (_, fsm1) := fsm.transition t
    fsm1.current_state :: fsm1.runSeq ts

/-- A registered callable of `src/fsm_agent/tool_registry.py`: `name` models
the Python function's own declared identifier (`func.__name__`), and `fn`
the callable itself. Tools take keyword arguments (a mapping from parameter
name to argument value of type `κ`), may read and mutate a shared external
context of type `σ` (Python closures over caller-owned state), and either
return a value of type `α` or raise (`Except.error` with the message). -/
structure Tool (σ κ α : Type) where
  name : String
  fn : List (String × κ) → σ → Except String α × σ
deriving Inhabited

/-- `ToolRegistry`: the private dict `_tools` mapping tool name to callable. -/
structure ToolRegistry (σ κ α : Type) where
  _tools : List (String × (List (String × κ) → σ → Except String α × σ))

/-- `ToolRegistry.__init__`: starts with an empty `_tools` dict. -/
def ToolRegistry.empty (σ κ α : Type) : ToolRegistry σ κ α := ⟨[]⟩

/-- `ToolRegistry.register`: `self._tools[func.__name__] = func; return func`
— stores the callable under its declared name (overwriting any prior entry
for that name) and returns the function unchanged. -/
def ToolRegistry.register {σ κ α : Type} (r : ToolRegistry σ κ α)
    (func : Tool σ κ α) : ToolRegistry σ κ α × Tool σ κ α :=
  (⟨dictSet r._tools func.name func.fn⟩, func)

/-- The callable registered under `name`, if any (`self._tools[name]`). -/
def ToolRegistry.lookup {σ κ α : Type} (r : ToolRegistry σ κ α)
    (name : String) : Option (List (String × κ) → σ → Except String α × σ) :=
  (r._tools.find? (fun p => p.1 == name)).map (fun p => p.2)

/-- Message of the `ValueError` raised by `ToolRegistry.execute` for an
unregistered name. -/
def unknownToolMsg (name : String) : String :=
  "Tool '" ++ name ++ "' not found."

/-- `ToolRegistry.execute`: raises for an unregistered name (leaving the
shared context untouched, no callable having run); otherwise calls the
registered callable with the given kwargs and returns whatever it returns —
or propagates whatever it raises — together with the context it leaves
behind. -/
def ToolRegistry.execute {σ κ α : Type} (r : ToolRegistry σ κ α)
    (name : String) (kwargs : List (String × κ)) (ctx : σ) :
    Except String α × σ :=
  match r.lookup name with
  | none => (.error (unknownToolMsg name), ctx)
  | some fn => fn kwargs ctx

/-- `generate_orchestrator_guide` of `src/fsm_agent/utils.py`: two lines,
the current state and either the comma-joined legal next states or the
`None (Terminal State)` text when the list is empty.  The `tool_registry`
argument is accepted but unused, as in the source (the tool-listing block
is commented out there). -/
def generate_orchestrator_guide {σ κ α : Type} (fsm : FSM)
    (tool_registry : ToolRegistry σ κ α) : String :=
  let line1 := "Current State: " ++ fsm.current_state
  let next_states := fsm.get_next_states
  let line2 :=
    if !next_states.isEmpty then
      "Valid Next States: " ++ String.intercalate ", " next_states
    else
      "Valid Next States: None (Terminal State)"
  String.intercalate "\n" [line1, line2]

/-- The graph of Scenario A of the specification:
`start → analyzing → (approved | rejected) → end`. -/
def scenarioAGraph : List (String × List String) :=
  [("start", ["analyzing"]), ("analyzing", ["approved", "rejected"]),
   ("approved", ["end"]), ("rejected", ["end"]), ("end", [])]

/-- A concrete tool over a shared `Nat` counter: returns `"done"` and bumps
the counter by one, making a single invocation observable. -/
def counterTool : Tool Nat Nat String :=
  ⟨"counter_tool", fun _ n => (.ok "done", n + 1)⟩

/-- A second concrete tool declared under the same name `counter_tool`,
with a different result and a different effect on the shared counter. -/
def counterToolTwice : Tool Nat Nat String :=
  ⟨"counter_tool", fun _ n => (.ok "done twice", n + 2)⟩

/-- A concrete tool that always raises, leaving the shared counter as it
found it. -/
def failTool : Tool Nat Nat String :=
  ⟨"fail_tool", fun _ n => (.error "boom", n)⟩

/-- `firstBadEdge` finds nothing exactly when every transition target listed
anywhere in the graph is itself a key of the graph. -/
lemma firstBadEdge_eq_none {states : List (String × List String)} :
    firstBadEdge states = none ↔
      ∀ p ∈ states, ∀ ns ∈ p.2, dictContains states ns = true := by
  unfold firstBadEdge
  rw [List.findSome?_eq_none_iff]
  constructor
  · intro h p hp ns hns
    have := h p hp
    rw [Option.map_eq_none', List.find?_eq_none] at this
    simpa using this ns hns
  · intro h p hp
    rw [Option.map_eq_none', List.find?_eq_none]
    intro ns hns
    simpa using h p hp ns hns

/-- C1: for every successfully constructed FSM and every target not in the
legal next states, `transition` raises a `ValueError` carrying the current
state, the requested target and the legal set, and the machine is returned
unchanged: no side effect occurs on failure. -/
theorem transition_invalid_raises_no_side_effect
    (states : List (String × List String)) (initial_state : String)
    (terminal_states : List String) (fsm : FSM) (t : String)
    (hc : FSM.construct states initial_state terminal_states = .ok fsm)
    (h : t ∉ fsm.get_next_states) :
    fsm.transition t =
      (.error (invalidTransitionMsg fsm.current_state t fsm.get_next_states),
       fsm) := by
  unfold FSM.transition
  simp [h]

/-- Witness for C1 at Scenario B of the specification: from `start`,
`transition("rejected")` raises and the machine still sits at `start`. -/
theorem transition_invalid_raises_no_side_effect_witness :
    (FSM.mk scenarioAGraph "start" ["end"]).transition "rejected" =
      (.error (invalidTransitionMsg
        (FSM.mk scenarioAGraph "start" ["end"]).current_state "rejected"
        (FSM.mk scenarioAGraph "start" ["end"]).get_next_states),
       FSM.mk scenarioAGraph "start" ["end"]) :=
  transition_invalid_raises_no_side_effect scenarioAGraph "start" ["end"]
    (FSM.mk scenarioAGraph "start" ["end"]) "rejected" rfl (by decide)

/-- C2: for every successfully constructed FSM, `transition` to a target in
the legal next states succeeds and afterwards `current_state` equals the
target; in particular Scenario A: on the graph
`start → analyzing → (approved | rejected) → end` with initial `start` and
terminal set containing only `end`, the sequence `analyzing`, `approved`,
`end` succeeds at each step and `is_terminal()` is false until after the
third call, then true. -/
theorem transition_legal_succeeds :
    (∀ (states : List (String × List String)) (initial_state : String)
        (terminal_states : List String) (fsm : FSM) (t : String),
      FSM.construct states initial_state terminal_states = .ok fsm →
      t ∈ fsm.get_next_states →
      (fsm.transition t).1 = .ok () ∧ (fsm.transition t).2.current_state = t)
    ∧ (FSM.construct scenarioAGraph "start" ["end"] =
        .ok (FSM.mk scenarioAGraph "start" ["end"])
      ∧ (FSM.mk scenarioAGraph "start" ["end"]).is_terminal = false
      ∧ (FSM.mk scenarioAGraph "start" ["end"]).transition "analyzing" =
          (.ok (), FSM.mk scenarioAGraph "analyzing" ["end"])
      ∧ (FSM.mk scenarioAGraph "analyzing" ["end"]).is_terminal = false
      ∧ (FSM.mk scenarioAGraph "analyzing" ["end"]).transition "approved" =
          (.ok (), FSM.mk scenarioAGraph "approved" ["end"])
      ∧ (FSM.mk scenarioAGraph "approved" ["end"]).is_terminal = false
      ∧ (FSM.mk scenarioAGraph "approved" ["end"]).transition "end" =
          (.ok (), FSM.mk scenarioAGraph "end" ["end"])
      ∧ (FSM.mk scenarioAGraph "end" ["end"]).is_terminal = true) := by
  constructor
  · intro states initial_state terminal_states fsm t _ h
    unfold FSM.transition
    simp [h]
  · exact ⟨rfl, by decide, rfl, by decide, rfl, by decide, rfl, by decide⟩

/-- Witness for C2: the first step of Scenario A, obtained from the
universal part of the theorem at the constructed machine. -/
theorem transition_legal_succeeds_witness :
    ((FSM.mk scenarioAGraph "start" ["end"]).transition "analyzing").1 =
        .ok ()
    ∧ ((FSM.mk scenarioAGraph "start" ["end"]).transition
        "analyzing").2.current_state = "analyzing" :=
  transition_legal_succeeds.1 scenarioAGraph "start" ["end"]
    (FSM.mk scenarioAGraph "start" ["end"]) "analyzing" rfl (by decide)

/-- C3: construction raises a `ValueError` when the initial state is not a
key of the graph, raises a `ValueError` when any transition target listed
anywhere in the graph is not a key of the graph, and on success yields a
machine whose `current_state` is the initial state (with the given graph
and terminal set); failure yields no machine at all. -/
theorem construct_validation (states : List (String × List String))
    (initial_state : String) (terminal_states : List String) :
    (dictContains states initial_state = false →
      FSM.construct states initial_state terminal_states =
        .error (initialStateMsg initial_state))
    ∧ ((∃ p ∈ states, ∃ ns ∈ p.2, dictContains states ns = false) →
      ∃ msg, FSM.construct states initial_state terminal_states =
        .error msg)
    ∧ (∀ fsm, FSM.construct states initial_state terminal_states = .ok fsm →
      fsm.current_state = initial_state ∧ fsm.states = states ∧
        fsm.terminal_states = terminal_states) := by
  refine ⟨fun h => by unfold FSM.construct; simp [h], ?_, ?_⟩
  · rintro ⟨p, hp, ns, hns, hbad⟩
    have hsome : firstBadEdge states ≠ none := fun hnone => by
      have hall := firstBadEdge_eq_none.mp hnone
      rw [hall p hp ns hns] at hbad
      exact Bool.noConfusion hbad
    unfold FSM.construct
    by_cases hinit : dictContains states initial_state
    · obtain ⟨⟨s, n⟩, hfb⟩ := Option.ne_none_iff_exists'.mp hsome
      rw [hfb]
      exact ⟨targetMsg n s, by simp [hinit]⟩
    · exact ⟨initialStateMsg initial_state, by
        simp [Bool.eq_false_iff.mpr hinit]⟩
  · intro fsm h
    unfold FSM.construct at h
    split at h
    · exact absurd h (by simp)
    · split at h
      · exact absurd h (by simp)
      · cases h
        exact ⟨rfl, rfl, rfl⟩

/-- Witness for C3: a bad initial state is rejected, a bad edge target is
rejected, and a well-formed one-state graph constructs with its initial
state current. -/
theorem construct_validation_witness :
    (FSM.construct [("a", ["a"])] "c" [] = .error (initialStateMsg "c"))
    ∧ (∃ msg, FSM.construct [("a", ["b"])] "a" [] = .error msg)
    ∧ ((FSM.mk [("a", ["a"])] "a" []).current_state = "a"
        ∧ (FSM.mk [("a", ["a"])] "a" []).states = [("a", ["a"])]
        ∧ (FSM.mk [("a", ["a"])] "a" []).terminal_states = []) :=
  ⟨(construct_validation [("a", ["a"])] "c" []).1 (by decide),
   (construct_validation [("a", ["b"])] "a" []).2.1
     ⟨("a", ["b"]), by decide, "b", by decide, by decide⟩,
   (construct_validation [("a", ["a"])] "a" []).2.2
     (FSM.mk [("a", ["a"])] "a" []) rfl⟩

/-- C4: `is_terminal()` is true exactly when `current_state` is in
`terminal_states`, independently of outgoing edges: with no legal next
states, a state in the terminal set reports terminal while a dead-end state
outside it does not, even though `get_next_states()` is empty either way. -/
theorem is_terminal_iff_membership (fsm : FSM) :
    (fsm.is_terminal = true ↔ fsm.current_state ∈ fsm.terminal_states)
    ∧ (fsm.get_next_states = [] →
        fsm.current_state ∈ fsm.terminal_states → fsm.is_terminal = true)
    ∧ (fsm.get_next_states = [] →
        fsm.current_state ∉ fsm.terminal_states → fsm.is_terminal = false) := by
  refine ⟨?_, ?_, ?_⟩
  · unfold FSM.is_terminal
    simp
  · intro _ h
    unfold FSM.is_terminal
    simp [h]
  · intro _ h
    unfold FSM.is_terminal
    simp [h]

/-- Witness for C4: an `end` state with no outgoing edges is terminal when
listed and non-terminal when not, with an empty legal set both times. -/
theorem is_terminal_iff_membership_witness :
    ((FSM.mk [("end", [])] "end" ["end"]).get_next_states = []
      ∧ (FSM.mk [("end", [])] "end" ["end"]).is_terminal = true)
    ∧ ((FSM.mk [("end", [])] "end" []).get_next_states = []
      ∧ (FSM.mk [("end", [])] "end" []).is_terminal = false) :=
  ⟨⟨by decide,
    (is_terminal_iff_membership (FSM.mk [("end", [])] "end" ["end"])).2.1
      (by decide) (by decide)⟩,
   ⟨by decide,
    (is_terminal_iff_membership (FSM.mk [("end", [])] "end" [])).2.2
      (by decide) (by decide)⟩⟩

/-- Mapping the overwrite function over a dict that contains the key yields
`(k, v)` as the first (and only) entry found under `k`. -/
lemma find?_map_overwrite {β : Type} (k : String) (v : β) :
    ∀ d : List (String × β), d.any (fun p => p.1 == k) = true →
      (d.map (fun p => if p.1 == k then (k, v) else p)).find?
        (fun p => p.1 == k) = some (k, v)
  | [], h => by simp at h
  | p :: d, h => by
    by_cases hp : (p.1 == k) = true
    · rw [List.map_cons, if_pos hp]
      exact List.find?_cons_of_pos _ (by simp)
    · rw [List.map_cons, if_neg hp]
      have hd : d.any (fun q => q.1 == k) = true := by
        rw [List.any_cons, Bool.eq_false_iff.mpr hp, Bool.false_or] at h
        exact h
      rw [@List.find?_cons_of_neg _ (fun q => q.1 == k) p
        (d.map (fun q => if q.1 == k then (k, v) else q)) hp]
      exact find?_map_overwrite k v d hd

/-- After `dictSet d k v`, the entry found under `k` is `(k, v)`: overwrite
in place when `k` was a key, fresh entry at the end otherwise. -/
lemma find?_dictSet {β : Type} (d : List (String × β)) (k : String) (v : β) :
    (dictSet d k v).find? (fun p => p.1 == k) = some (k, v) := by
  unfold dictSet
  by_cases h : d.any (fun p => p.1 == k) = true
  · rw [if_pos h]
    exact find?_map_overwrite k v d h
  · rw [if_neg h, List.find?_append]
    have hnone : d.find? (fun p => p.1 == k) = none := by
      rw [List.find?_eq_none]
      intro p hp hpk
      exact h (List.any_eq_true.mpr ⟨p, hp, hpk⟩)
    rw [hnone]
    simp [List.find?]

/-- C5: `execute` with a registered name invokes exactly the callable
registered under that name, with exactly the given kwargs and shared
context, once, and returns exactly its result; with an unregistered name it
raises a `ValueError` and the shared context is untouched — no callable ran
and the registry itself, being only read, is unchanged. -/
theorem execute_dispatch {σ κ α : Type} (r : ToolRegistry σ κ α)
    (name : String) (kwargs : List (String × κ)) (ctx : σ) :
    (∀ fn, r.lookup name = some fn →
      r.execute name kwargs ctx = fn kwargs ctx)
    ∧ (r.lookup name = none →
      r.execute name kwargs ctx = (.error (unknownToolMsg name), ctx)) := by
  constructor
  · intro fn h
    unfold ToolRegistry.execute
    rw [h]
  · intro h
    unfold ToolRegistry.execute
    rw [h]

/-- Witness for C5: on a registry holding only `counter_tool`, executing it
runs the callable once (the counter moves from 0 to 1) and returns its
result, while executing a missing name raises and leaves the counter at 5. -/
theorem execute_dispatch_witness :
    (((ToolRegistry.empty Nat Nat String).register counterTool).1.execute
        "counter_tool" [("x", 3)] 0 = (.ok "done", 1))
    ∧ (((ToolRegistry.empty Nat Nat String).register counterTool).1.execute
        "missing" [] 5 = (.error (unknownToolMsg "missing"), 5)) :=
  ⟨(execute_dispatch ((ToolRegistry.empty Nat Nat String).register
      counterTool).1 "counter_tool" [("x", 3)] 0).1 counterTool.fn rfl,
   (execute_dispatch ((ToolRegistry.empty Nat Nat String).register
      counterTool).1 "missing" [] 5).2 rfl⟩

/-- C6: when the registered callable itself raises, `execute` propagates
exactly that error, unmodified, along with whatever context the callable
left behind — no retry, no suppression, no wrapping. -/
theorem tool_error_propagates {σ κ α : Type} (r : ToolRegistry σ κ α)
    (name : String) (fn : List (String × κ) → σ → Except String α × σ)
    (kwargs : List (String × κ)) (ctx : σ) (e : String) (ctx' : σ)
    (h : r.lookup name = some fn) (hf : fn kwargs ctx = (.error e, ctx')) :
    r.execute name kwargs ctx = (.error e, ctx') := by
  unfold ToolRegistry.execute
  rw [h]
  exact hf

/-- Witness for C6: the raising tool's error string reaches the caller of
`execute` verbatim, with the counter untouched. -/
theorem tool_error_propagates_witness :
    ((ToolRegistry.empty Nat Nat String).register failTool).1.execute
        "fail_tool" [] 7 = (.error "boom", 7) :=
  tool_error_propagates
    ((ToolRegistry.empty Nat Nat String).register failTool).1
    "fail_tool" failTool.fn [] 7 "boom" 7 rfl rfl

/-- C7: whenever the current state has no legal next states, the guide text
ends with the line `Valid Next States: None (Terminal State)` — even when
the state is not in `terminal_states`, so the guide labels a dead end as
terminal. -/
theorem guide_labels_dead_end_terminal {σ κ α : Type} (fsm : FSM)
    (tool_registry : ToolRegistry σ κ α)
    (hempty : fsm.get_next_states = []) (hterm : fsm.is_terminal = false) :
    generate_orchestrator_guide fsm tool_registry =
      "Current State: " ++ fsm.current_state ++ "\n" ++
        "Valid Next States: None (Terminal State)" := by
  unfold generate_orchestrator_guide
  rw [hempty]
  rfl

/-- Witness for C7: a dead-end state `stuck` with an empty terminal set is
rendered as a terminal state by the guide. -/
theorem guide_labels_dead_end_terminal_witness :
    generate_orchestrator_guide (FSM.mk [("stuck", [])] "stuck" [])
        (ToolRegistry.empty Nat Nat String) =
      "Current State: " ++ (FSM.mk [("stuck", [])] "stuck" []).current_state
        ++ "\n" ++ "Valid Next States: None (Terminal State)" :=
  guide_labels_dead_end_terminal (FSM.mk [("stuck", [])] "stuck" [])
    (ToolRegistry.empty Nat Nat String) (by decide) (by decide)

/-- C8: `register` returns the tool unchanged, keys the entry by the tool's
own declared name, and a subsequent `execute` under that name invokes
exactly the newly registered callable — in particular registering over an
existing name silently overwrites it, so the most recent callable wins. -/
theorem register_overwrites {σ κ α : Type} (r : ToolRegistry σ κ α)
    (t : Tool σ κ α) :
    (r.register t).2 = t
    ∧ (r.register t).1.lookup t.name = some t.fn
    ∧ ∀ kwargs ctx,
        (r.register t).1.execute t.name kwargs ctx = t.fn kwargs ctx := by
  have hl : (r.register t).1.lookup t.name = some t.fn := by
    unfold ToolRegistry.register ToolRegistry.lookup
    rw [find?_dictSet]
    rfl
  refine ⟨rfl, hl, ?_⟩
  intro kwargs ctx
  unfold ToolRegistry.execute
  rw [hl]

/-- Witness for C8: after registering `counterTool` and then
`counterToolTwice` under the same name, `execute` invokes the most recently
registered callable. -/
theorem register_overwrites_witness :
    ((((ToolRegistry.empty Nat Nat String).register counterTool).1.register
        counterToolTwice).1).execute "counter_tool" [] 0 =
      (.ok "done twice", 2) :=
  (register_overwrites
    ((ToolRegistry.empty Nat Nat String).register counterTool).1
    counterToolTwice).2.2 [] 0

/-- C9: `get_next_states()` and `is_terminal()` are pure reads: any number
of repeated calls with no intervening `transition` leaves the machine
exactly as it was and every call returns the same pair of results. -/
theorem read_operations_pure (fsm : FSM) (n : Nat) :
    (fsm.readSeq n).2 = fsm
    ∧ ∀ pr ∈ (fsm.readSeq n).1,
        pr = (fsm.get_next_states, fsm.is_terminal) := by
  induction n with
  | zero =>
    exact ⟨rfl, by intro pr h; simp [FSM.readSeq] at h⟩
  | succ n ih =>
    constructor
    · show (fsm.readSeq (n + 1)).2 = fsm
      simp only [FSM.readSeq, FSM.get_next_statesRun, FSM.is_terminalRun]
      exact ih.1
    · intro pr h
      simp only [FSM.readSeq, FSM.get_next_statesRun, FSM.is_terminalRun,
        List.mem_cons] at h
      rcases h with h | h
      · exact h
      · exact ih.2 pr h

/-- Witness for C9: on the Scenario A machine, ten repeated reads leave the
machine unchanged, and the first recorded read equals the pair of direct
reads. -/
theorem read_operations_pure_witness :
    ((FSM.mk scenarioAGraph "start" ["end"]).readSeq 10).2 =
      FSM.mk scenarioAGraph "start" ["end"]
    ∧ (["analyzing"], false) =
      ((FSM.mk scenarioAGraph "start" ["end"]).get_next_states,
       (FSM.mk scenarioAGraph "start" ["end"]).is_terminal) :=
  ⟨(read_operations_pure (FSM.mk scenarioAGraph "start" ["end"]) 10).1,
   (read_operations_pure (FSM.mk scenarioAGraph "start" ["end"]) 10).2
     (["analyzing"], false) (by decide)⟩

/-- C10: two independently constructed machines with identical graph,
initial state and terminal set yield identical `current_state` after each
call of any common sequence of `transition` calls. -/
theorem transition_deterministic (states : List (String × List String))
    (initial_state : String) (terminal_states : List String)
    (calls : List String) (m1 m2 : FSM)
    (h1 : FSM.construct states initial_state terminal_states = .ok m1)
    (h2 : FSM.construct states initial_state terminal_states = .ok m2) :
    m1.runSeq calls = m2.runSeq calls := by
  rw [h1] at h2
  injection h2 with h
  rw [h]

/-- Witness for C10: two machines constructed from the Scenario A
configuration agree on the state trace of a three-call sequence. -/
theorem transition_deterministic_witness :
    (FSM.mk scenarioAGraph "start" ["end"]).runSeq
        ["analyzing", "rejected", "approved"] =
      (FSM.mk scenarioAGraph "start" ["end"]).runSeq
        ["analyzing", "rejected", "approved"] :=
  transition_deterministic scenarioAGraph "start" ["end"]
    ["analyzing", "rejected", "approved"]
    (FSM.mk scenarioAGraph "start" ["end"])
    (FSM.mk scenarioAGraph "start" ["end"]) rfl rfl
